import Mathlib

/-!
Verification development for the merkl-mcp repository.

The definitions below are a shallow embedding of the two source files that
matter for the stated properties:
  * `src/merklClient.ts` — the `MerklClient` class: `toQuery` (URL query
    serialization), `fetchJson` (one HTTP GET with timeout / allow404
    semantics) and the per-endpoint client methods;
  * `src/server.ts` — the MCP tool handlers: input-schema id validation,
    default injection, `formatTimestamp`, and the per-operation response
    shaping (including the ended-campaign filter and the INVALID-row filter).

JavaScript strings are Lean `String`s; JS objects that serve as filter maps
are association lists in key-iteration order (filter keys are non-integer
strings, so JS iteration order is insertion order); integral JS numbers are
`Int`; absent (`undefined`) optional fields are `Option`.
-/

namespace Merkl

/-- ASCII decimal digit, the class `[0-9]` of the source's regexes. -/
def isDigitCh (c : Char) : Bool := c.isDigit

/-- The class `[0-9A-Z]` used by the opportunity-id regexes. -/
def isUpperAlnumCh (c : Char) : Bool := c.isDigit || c.isUpper

/-- The class `[0-9A-Za-z]` used by the opportunity-id regexes. -/
def isAlnumCh (c : Char) : Bool := c.isDigit || c.isUpper || c.isLower

/-- Digits of a natural number in base 10, most significant first,
prepended to `acc` (helper for the JS `String(number)` conversion).
Structural recursion on an explicit fuel so the definition reduces;
a fuel of `n + 1` always suffices since `n / 10 < n` for `n > 0`. -/
def natDecimalCore : Nat → Nat → List Char → List Char
  | 0, _, acc => acc
  | fuel + 1, n, acc =>
    if n = 0 then acc
    else natDecimalCore fuel (n / 10) (Char.ofNat (48 + n % 10) :: acc)

/-- JS `String(n)` for a non-negative integral number: decimal digits. -/
def natDecimal (n : Nat) : String :=
  if n = 0 then "0" else String.mk (natDecimalCore (n + 1) n [])

/-- JS `String(n)` for an integral number: decimal digits with a sign. -/
def intDecimal (i : Int) : String :=
  if i < 0 then "-" ++ natDecimal i.natAbs else natDecimal i.natAbs

theorem natDecimalCore_length (fuel : Nat) :
    ∀ (n : Nat) (acc : List Char), acc.length ≤ (natDecimalCore fuel n acc).length := by
  induction fuel with
  | zero => intro n acc; exact Nat.le_refl _
  | succ f ih =>
    intro n acc
    simp only [natDecimalCore]
    split
    · exact Nat.le_refl _
    · exact Nat.le_trans (by simp) (ih (n / 10) _)

theorem natDecimal_ne_empty (n : Nat) : natDecimal n ≠ "" := by
  unfold natDecimal
  split
  · decide
  · next h =>
    intro hcon
    have h2 : String.mk (natDecimalCore (n + 1) n []) = String.mk [] := hcon
    have hlen : (natDecimalCore (n + 1) n []).length = 0 := by
      simpa using congrArg (fun s => s.data.length) h2
    simp only [natDecimalCore, if_neg h] at hlen
    have h1 := natDecimalCore_length n (n / 10) [Char.ofNat (48 + n % 10)]
    simp at h1
    omega

theorem intDecimal_ne_empty (i : Int) : intDecimal i ≠ "" := by
  unfold intDecimal
  split
  · intro hcon
    have : ("-" ++ natDecimal i.natAbs).length = 0 := by rw [hcon]; rfl
    rw [String.length_append] at this
    have h2 : (0 : Nat) < ("-" : String).length := by decide
    omega
  · exact natDecimal_ne_empty _

/-- Two-digit zero padding, as produced by `toISOString` for
month/day/hour/minute/second fields. -/
def pad2 (n : Nat) : String :=
  if n < 10 then "0" ++ natDecimal n else natDecimal n

/-- Four-digit zero padding for the year field of `toISOString`. -/
def pad4 (n : Nat) : String :=
  if n < 10 then "000" ++ natDecimal n
  else if n < 100 then "00" ++ natDecimal n
  else if n < 1000 then "0" ++ natDecimal n
  else natDecimal n

/-- Six-digit zero padding for the expanded-year form of `toISOString`. -/
def pad6 (n : Nat) : String :=
  if n < 10 then "00000" ++ natDecimal n
  else if n < 100 then "0000" ++ natDecimal n
  else if n < 1000 then "000" ++ natDecimal n
  else if n < 10000 then "00" ++ natDecimal n
  else if n < 100000 then "0" ++ natDecimal n
  else natDecimal n

/-- Year rendering of `Date.prototype.toISOString`: four digits for
0000-9999, otherwise the expanded `±YYYYYY` form. -/
def yearStr (y : Int) : String :=
  if 0 ≤ y ∧ y ≤ 9999 then pad4 y.toNat
  else if y < 0 then "-" ++ pad6 y.natAbs
  else "+" ++ pad6 y.toNat

/-- Proleptic-Gregorian civil date from days since 1970-01-01
(the standard days-to-civil algorithm; floor division throughout,
matching the calendar arithmetic of the JS `Date` object). -/
def civilFromDays (z0 : Int) : Int × Nat × Nat :=
  let z := z0 + 719468
  let era := Int.fdiv z 146097
  let doe := (z - era * 146097).toNat
  let yoe := (doe - doe / 1460 + doe / 36524 - doe / 146096) / 365
  let y := (yoe : Int) + era * 400
  let doy := doe - (365 * yoe + yoe / 4 - yoe / 100)
  let mp := (5 * doy + 2) / 153
  let d := doy - (153 * mp + 2) / 5 + 1
  let m := if mp < 10 then mp + 3 else mp - 9
  (if m ≤ 2 then y + 1 else y, m, d)

/-- `formatTimestamp` from `src/server.ts`:
`new Date(timestamp * 1000).toISOString()`. The argument is an upstream
epoch-seconds integer; multiplying by 1000 makes the millisecond field of
the rendered instant always `000`. -/
def formatTimestamp (t : Int) : String :=
  let days := Int.fdiv t 86400
  let sod := (Int.fmod t 86400).toNat
  let c := civilFromDays days
  yearStr c.1 ++ "-" ++ pad2 c.2.1 ++ "-" ++ pad2 c.2.2 ++ "T" ++
    pad2 (sod / 3600) ++ ":" ++ pad2 ((sod / 60) % 60) ++ ":" ++ pad2 (sod % 60) ++ ".000Z"

example : formatTimestamp 0 = "1970-01-01T00:00:00.000Z" := by decide
example : formatTimestamp 1700000000 = "2023-11-14T22:13:20.000Z" := by decide

/-! ### JS values and `MerklClient.toQuery` -/

/-- A JS scalar as it can appear in a filter object (string, integral
number, or boolean). -/
inductive JsScalar where
  | str (s : String)
  | num (n : Int)
  | bool (b : Bool)
deriving DecidableEq, Repr

/-- A filter-object value: `scalar | array-of-scalar | undefined | null`,
the input domain of `toQuery`. -/
inductive JsValue where
  | undef
  | null
  | scalar (v : JsScalar)
  | arr (elems : List JsScalar)
deriving DecidableEq, Repr

/-- JS `String(v)` for a scalar. -/
def scalarToString : JsScalar → String
  | .str s => s
  | .num n => intDecimal n
  | .bool b => if b then "true" else "false"

/-- JS `Array.prototype.join(",")` over an array of scalars. -/
def joinScalars : List JsScalar → String
  | [] => ""
  | [v] => scalarToString v
  | v :: rest => scalarToString v ++ "," ++ joinScalars rest

/-- The body of the `toQuery` loop, per entry: `undefined`, `null` and
`""` are skipped; an array is skipped when empty and joined with `","`
otherwise; any other scalar is stringified. Returns the value set on the
`URLSearchParams` for that key, or `none` when the entry is skipped. -/
def keepValue : JsValue → Option String
  | .undef => none
  | .null => none
  | .scalar (.str s) => if s = "" then none else some s
  | .scalar v => some (scalarToString v)
  | .arr l => if l.isEmpty then none else some (joinScalars l)

/-- UTF-8 bytes of a character (code points are what Lean `Char` holds;
query serialization percent-encodes the UTF-8 bytes). -/
def utf8Bytes (c : Char) : List Nat :=
  let n := c.toNat
  if n < 0x80 then [n]
  else if n < 0x800 then [0xC0 + n / 0x40, 0x80 + n % 0x40]
  else if n < 0x10000 then
    [0xE0 + n / 0x1000, 0x80 + n / 0x40 % 0x40, 0x80 + n % 0x40]
  else
    [0xF0 + n / 0x40000, 0x80 + n / 0x1000 % 0x40, 0x80 + n / 0x40 % 0x40, 0x80 + n % 0x40]

/-- UTF-8 bytes of a string. -/
def strBytes (s : String) : List Nat :=
  s.data.foldr (fun c acc => utf8Bytes c ++ acc) []

/-- Bytes kept verbatim by the `application/x-www-form-urlencoded`
serializer used by `URLSearchParams.toString`: ASCII alphanumerics and
`*`, `-`, `.`, `_`. -/
def isFormSafe (b : Nat) : Bool :=
  (0x41 ≤ b && b ≤ 0x5A) || (0x61 ≤ b && b ≤ 0x7A) || (0x30 ≤ b && b ≤ 0x39) ||
    b == 0x2A || b == 0x2D || b == 0x2E || b == 0x5F

/-- Uppercase hexadecimal digit. -/
def hexDigitCh (n : Nat) : Char :=
  Char.ofNat (if n < 10 then 48 + n else 55 + n)

/-- One byte of `application/x-www-form-urlencoded` output: space becomes
`+`, safe bytes stay, the rest is `%XX` with uppercase hex. -/
def encodeByte (b : Nat) : List Char :=
  if b = 0x20 then ['+']
  else if isFormSafe b then [Char.ofNat b]
  else ['%', hexDigitCh (b / 16), hexDigitCh (b % 16)]

/-- `application/x-www-form-urlencoded` encoding of one string. -/
def formEncode (s : String) : String :=
  String.mk ((strBytes s).foldr (fun b acc => encodeByte b ++ acc) [])

/-- `URLSearchParams.set`: replace the value of the first pair with this
key (dropping any later pairs with the same key), or append a new pair. -/
def setParam (qs : List (String × String)) (k v : String) : List (String × String) :=
  if qs.any (fun p => p.1 == k) then replaceFirst qs k v else qs ++ [(k, v)]
where
  replaceFirst : List (String × String) → String → String → List (String × String)
    | [], _, _ => []
    | p :: rest, k, v =>
      if p.1 = k then (k, v) :: rest.filter (fun q => q.1 ≠ k)
      else p :: replaceFirst rest k v

/-- One iteration of the `toQuery` loop: `continue` on a skipped entry,
`qs.set(k, v)` otherwise. -/
def queryStep (qs : List (String × String)) (p : String × JsValue) : List (String × String) :=
  match keepValue p.2 with
  | none => qs
  | some v => setParam qs p.1 v

/-- The `URLSearchParams` contents built by the `toQuery` loop, in order. -/
def keptPairs (params : List (String × JsValue)) : List (String × String) :=
  params.foldl queryStep []

/-- One `k=v` component of `URLSearchParams.toString`. -/
def encodePair (p : String × String) : String :=
  formEncode p.1 ++ "=" ++ formEncode p.2

/-- `URLSearchParams.toString`: the `k=v` components joined with `&`. -/
def encodePairs : List (String × String) → String
  | [] => ""
  | [p] => encodePair p
  | p :: rest => encodePair p ++ "&" ++ encodePairs rest

/-- `MerklClient.toQuery` from `src/merklClient.ts`: serialize the filter
object and prepend `?` when anything was emitted. -/
def toQuery (params : List (String × JsValue)) : String :=
  let s := encodePairs (keptPairs params)
  if s = "" then "" else "?" ++ s

example : toQuery [] = "" := by decide
example :
    toQuery [("chainId", JsValue.scalar (JsScalar.str "1,42161")),
             ("items", JsValue.scalar (JsScalar.num 100)),
             ("test", JsValue.scalar (JsScalar.bool false)),
             ("name", JsValue.scalar (JsScalar.str "")),
             ("tokenTypes", JsValue.arr [JsScalar.str "TOKEN", JsScalar.str "POINT"])] =
      "?chainId=1%2C42161&items=100&test=false&tokenTypes=TOKEN%2CPOINT" := by decide
example : toQuery [("a", JsValue.arr [JsScalar.str ""])] = "?a=" := by decide

/-! ### Lemmas about the query encoder -/

theorem setParam_of_fresh (qs : List (String × String)) (k v : String)
    (h : ∀ q ∈ qs, q.1 ≠ k) : setParam qs k v = qs ++ [(k, v)] := by
  unfold setParam
  rw [if_neg]
  intro hany
  rcases List.any_eq_true.mp hany with ⟨q, hq, hbeq⟩
  exact h q hq (by simpa using hbeq)

theorem foldl_queryStep_eq (params : List (String × JsValue)) :
    ∀ qs : List (String × String),
      (∀ p ∈ params, ∀ q ∈ qs, q.1 ≠ p.1) →
      (params.map Prod.fst).Nodup →
      params.foldl queryStep qs
        = qs ++ params.filterMap (fun p => (keepValue p.2).map (fun s => (p.1, s))) := by
  induction params with
  | nil => intro qs _ _; simp
  | cons p rest ih =>
    intro qs hdisj hnodup
    have hnodup' : (p.1 :: rest.map Prod.fst).Nodup := by simpa using hnodup
    have hnd_rest : (rest.map Prod.fst).Nodup := (List.nodup_cons.mp hnodup').2
    have hhead : p.1 ∉ rest.map Prod.fst := (List.nodup_cons.mp hnodup').1
    have hfresh : ∀ r ∈ rest, r.1 ≠ p.1 := by
      intro r hr hcon
      exact hhead (hcon ▸ List.mem_map_of_mem Prod.fst hr)
    simp only [List.foldl_cons, List.filterMap_cons]
    cases hkv : keepValue p.2 with
    | none =>
      have hstep : queryStep qs p = qs := by simp [queryStep, hkv]
      rw [hstep]
      exact ih qs (fun r hr q hq => hdisj r (List.mem_cons_of_mem _ hr) q hq) hnd_rest
    | some v =>
      have hstep : queryStep qs p = qs ++ [(p.1, v)] := by
        simp only [queryStep, hkv]
        exact setParam_of_fresh qs p.1 v
          (fun q hq => hdisj p (List.mem_cons_self _ _) q hq)
      rw [hstep,
        ih (qs ++ [(p.1, v)])
          (by
            intro r hr q hq
            rcases List.mem_append.mp hq with hq1 | hq2
            · exact hdisj r (List.mem_cons_of_mem _ hr) q hq1
            · have : q = (p.1, v) := by simpa using hq2
              rw [this]
              exact fun hcon => hfresh r hr hcon.symm)
          hnd_rest,
        List.append_assoc]
      simp [hkv]

theorem keptPairs_eq_filterMap (params : List (String × JsValue))
    (hnd : (params.map Prod.fst).Nodup) :
    keptPairs params
      = params.filterMap (fun p => (keepValue p.2).map (fun s => (p.1, s))) := by
  have := foldl_queryStep_eq params [] (by intro _ _ q hq; cases hq) hnd
  simpa [keptPairs] using this

theorem scalarToString_ne_empty (v : JsScalar) (h : scalarToString v = "") :
    v = JsScalar.str "" := by
  cases v with
  | str s =>
    simp only [scalarToString] at h
    rw [h]
  | num n => exact absurd h (intDecimal_ne_empty n)
  | bool b => cases b <;> simp [scalarToString] at h

theorem joinScalars_eq_empty (l : List JsScalar) (hne : l ≠ [])
    (h : joinScalars l = "") : l = [JsScalar.str ""] := by
  match l with
  | [] => exact absurd rfl hne
  | [v] =>
    simp only [joinScalars] at h
    rw [scalarToString_ne_empty v h]
  | v :: w :: rest =>
    exfalso
    simp only [joinScalars] at h
    have hlen := congrArg String.length h
    rw [String.length_append, String.length_append] at hlen
    have h1 : (("," : String)).length = 1 := by decide
    have h0 : ("" : String).length = 0 := by decide
    omega

theorem keepValue_eq_some_empty (v : JsValue) (h : keepValue v = some "") :
    v = JsValue.arr [JsScalar.str ""] := by
  cases v with
  | undef => simp [keepValue] at h
  | null => simp [keepValue] at h
  | scalar s =>
    exfalso
    cases s with
    | str t =>
      by_cases ht : t = ""
      · simp [keepValue, ht] at h
      · simp [keepValue, ht] at h
    | num n =>
      simp [keepValue, scalarToString] at h
      exact intDecimal_ne_empty n h
    | bool b => cases b <;> simp [keepValue, scalarToString] at h
  | arr l =>
    cases l with
    | nil => simp [keepValue] at h
    | cons a as =>
      simp [keepValue] at h
      rw [joinScalars_eq_empty (a :: as) (by simp) h]

theorem encodePair_length_pos (p : String × String) : 0 < (encodePair p).length := by
  unfold encodePair
  rw [String.length_append, String.length_append]
  have : (("=" : String)).length = 1 := by decide
  omega

theorem encodePairs_ne_empty (l : List (String × String)) (h : l ≠ []) :
    encodePairs l ≠ "" := by
  match l with
  | [] => exact absurd rfl h
  | [p] =>
    intro hcon
    have := encodePair_length_pos p
    have hz := congrArg String.length hcon
    simp only [encodePairs] at hz
    rw [hz] at this
    exact absurd this (by decide)
  | p :: q :: rest =>
    intro hcon
    have hz := congrArg String.length hcon
    simp only [encodePairs] at hz
    rw [String.length_append, String.length_append] at hz
    have := encodePair_length_pos p
    have h1 : (("&" : String)).length = 1 := by decide
    have h0 : ("" : String).length = 0 := by decide
    omega

theorem toQuery_eq_ite (params : List (String × JsValue)) :
    toQuery params
      = (if keptPairs params = [] then ""
         else "?" ++ encodePairs (keptPairs params)) := by
  unfold toQuery
  by_cases h : keptPairs params = []
  · simp [h, encodePairs]
  · rw [if_neg h, if_neg (encodePairs_ne_empty _ h)]

/-- C1 counterexample: the filter object `{action: [""]}` makes `toQuery`
emit the key `action` with an empty value (`"?action="`), violating the
claimed hard invariant that no key is ever emitted with an empty value. -/
theorem toQuery_emits_empty_value_counterexample :
    toQuery [("action", JsValue.arr [JsScalar.str ""])] = "?action="
    ∧ ("action", "") ∈ keptPairs [("action", JsValue.arr [JsScalar.str ""])] := by
  constructor
  · decide
  · decide

/-- C1 (amended): for every filter object with distinct keys, the emitted
pairs are exactly the entries whose value is kept (undefined, null, the
empty string, and the empty array are omitted; a non-empty array is
joined with commas; other scalars — including `0` and `false` — are
stringified), in the object's key iteration order; any emitted empty
value can only come from a non-empty array joining to `""` (the value
`[""]`); the output is `""` when no key was set and `"?"` followed by the
urlencoded pairs otherwise. -/
theorem toQuery_encoding_contract (params : List (String × JsValue))
    (hnd : (params.map Prod.fst).Nodup) :
    keptPairs params
        = params.filterMap (fun p => (keepValue p.2).map (fun s => (p.1, s)))
    ∧ keepValue JsValue.undef = none
    ∧ keepValue JsValue.null = none
    ∧ keepValue (JsValue.scalar (JsScalar.str "")) = none
    ∧ keepValue (JsValue.arr []) = none
    ∧ (∀ l : List JsScalar, l ≠ [] → keepValue (JsValue.arr l) = some (joinScalars l))
    ∧ keepValue (JsValue.scalar (JsScalar.num 0)) = some "0"
    ∧ keepValue (JsValue.scalar (JsScalar.bool false)) = some "false"
    ∧ (∀ p ∈ keptPairs params, p.2 = "" → (p.1, JsValue.arr [JsScalar.str ""]) ∈ params)
    ∧ toQuery params
        = (if keptPairs params = [] then ""
           else "?" ++ encodePairs (keptPairs params)) := by
  refine ⟨keptPairs_eq_filterMap params hnd, rfl, rfl, by decide, rfl, ?_, by decide, by decide,
    ?_, toQuery_eq_ite params⟩
  · intro l hl
    cases l with
    | nil => exact absurd rfl hl
    | cons a as => simp [keepValue]
  · intro p hp hempty
    rw [keptPairs_eq_filterMap params hnd] at hp
    rcases List.mem_filterMap.mp hp with ⟨a, ha, hfa⟩
    rcases Option.map_eq_some'.mp hfa with ⟨s, hks, hps⟩
    have h1 : a.1 = p.1 := congrArg Prod.fst hps
    have h2 : s = p.2 := congrArg Prod.snd hps
    have hval : a.2 = JsValue.arr [JsScalar.str ""] :=
      keepValue_eq_some_empty a.2 (by rw [hks, h2, hempty])
    have : (p.1, JsValue.arr [JsScalar.str ""]) = a := by
      rw [← h1, ← hval]
    rw [this]
    exact ha

/-- C1 witness: the amended contract applied to a concrete filter object. -/
theorem toQuery_encoding_contract_witness :
    ((([("items", JsValue.scalar (JsScalar.num 0)),
        ("name", JsValue.null),
        ("tokenTypes", JsValue.arr [JsScalar.str "TOKEN", JsScalar.str "PRETGE"]),
        ("search", JsValue.scalar (JsScalar.str ""))] :
          List (String × JsValue)).map Prod.fst).Nodup)
    ∧ toQuery [("items", JsValue.scalar (JsScalar.num 0)),
        ("name", JsValue.null),
        ("tokenTypes", JsValue.arr [JsScalar.str "TOKEN", JsScalar.str "PRETGE"]),
        ("search", JsValue.scalar (JsScalar.str ""))]
        = "?items=0&tokenTypes=TOKEN%2CPRETGE" :=
  ⟨by decide,
    ((toQuery_encoding_contract
        [("items", JsValue.scalar (JsScalar.num 0)),
         ("name", JsValue.null),
         ("tokenTypes", JsValue.arr [JsScalar.str "TOKEN", JsScalar.str "PRETGE"]),
         ("search", JsValue.scalar (JsScalar.str ""))]
        (by decide)).2.2.2.2.2.2.2.2.2).trans (by decide)⟩

/-- C8 counterexample: for the array value `[""]` the encoding differs
from the encoding of the pre-joined string: the array emits
`"?chainId="` while the pre-joined `""` is omitted entirely. -/
theorem toQuery_array_join_counterexample :
    joinScalars [JsScalar.str ""] = ""
    ∧ toQuery [("chainId", JsValue.arr [JsScalar.str ""])] = "?chainId="
    ∧ toQuery [("chainId", JsValue.scalar (JsScalar.str (joinScalars [JsScalar.str ""])))] = ""
    ∧ toQuery [("chainId", JsValue.arr [JsScalar.str ""])]
        ≠ toQuery [("chainId", JsValue.scalar (JsScalar.str (joinScalars [JsScalar.str ""])))] := by
  refine ⟨by decide, by decide, by decide, by decide⟩

/-- C8 (amended): replacing an array-of-scalars filter value by its
elements pre-joined with `","` leaves the encoded query unchanged,
provided the join is non-empty or the array is empty (the sole
exception, an array joining to `""`, is the counterexample above). -/
theorem toQuery_array_eq_prejoined (pre post : List (String × JsValue)) (k : String)
    (l : List JsScalar) (h : joinScalars l ≠ "" ∨ l = []) :
    toQuery (pre ++ (k, JsValue.arr l) :: post)
      = toQuery (pre ++ (k, JsValue.scalar (JsScalar.str (joinScalars l))) :: post) := by
  have hkv : keepValue (JsValue.arr l) = keepValue (JsValue.scalar (JsScalar.str (joinScalars l))) := by
    rcases h with hne | hnil
    · cases l with
      | nil => exact absurd rfl hne
      | cons a as => simp [keepValue, hne]
    · rw [hnil]
      decide
  have hstep : ∀ qs : List (String × String),
      queryStep qs (k, JsValue.arr l)
        = queryStep qs (k, JsValue.scalar (JsScalar.str (joinScalars l))) := by
    intro qs
    simp only [queryStep, hkv]
  unfold toQuery keptPairs
  rw [List.foldl_append, List.foldl_append, List.foldl_cons, List.foldl_cons, hstep]

/-- C8 witness: the amended equivalence at a concrete array value. -/
theorem toQuery_array_eq_prejoined_witness :
    (joinScalars [JsScalar.str "A", JsScalar.str "B"] ≠ ""
      ∨ ([JsScalar.str "A", JsScalar.str "B"] : List JsScalar) = [])
    ∧ toQuery [("status", JsValue.arr [JsScalar.str "A", JsScalar.str "B"])]
        = toQuery [("status",
            JsValue.scalar (JsScalar.str (joinScalars [JsScalar.str "A", JsScalar.str "B"])))] :=
  ⟨Or.inl (by decide),
    toQuery_array_eq_prejoined [] [] "status" [JsScalar.str "A", JsScalar.str "B"]
      (Or.inl (by decide))⟩

/-! ### `MerklClient.fetchJson` -/

/-- Outcome of the single `fetchFn` call made by `fetchJson`: the request
either aborts on the timeout, rejects with some other error, or resolves
to a response with a status, a status text, and a parsed JSON body. -/
inductive FetchOutcome (α : Type) where
  | timeout
  | netError (msg : String)
  | response (status : Nat) (statusText : String) (body : α)
deriving DecidableEq, Repr

/-- `MerklClient.fetchJson`: a timeout (the `AbortError` branch) fails
with the configured duration in the message; with `allow404` a 404
response returns the `null` sentinel (`none`); any other non-2xx response
(`!res.ok`, i.e. status outside 200-299) fails with status and status
text; otherwise the body is returned. -/
def fetchJson {α : Type} (timeoutMs : Nat) (allow404 : Bool) :
    FetchOutcome α → Except String (Option α)
  | .timeout => .error ("Merkl request timed out after " ++ natDecimal timeoutMs ++ "ms")
  | .netError m => .error m
  | .response status statusText b =>
    if allow404 = true ∧ status = 404 then .ok none
    else if ¬(200 ≤ status ∧ status ≤ 299) then
      .error ("Merkl request failed: " ++ natDecimal status ++ " " ++ statusText)
    else .ok (some b)

/-- `fetchJson` together with the number of transport invocations it
makes: the source body contains exactly one `fetchFn` call and no retry
loop, so every call consults the transport exactly once. -/
def fetchJsonCount {α : Type} (timeoutMs : Nat) (allow404 : Bool)
    (o : FetchOutcome α) : Except String (Option α) × Nat :=
  (fetchJson timeoutMs allow404 o, 1)

/-- C4: every request through `fetchJson` fails on timeout with an error
carrying the configured duration, fails on a non-2xx status (other than
an allowed 404) with an error carrying the status code and status text,
and in all cases makes exactly one upstream request. -/
theorem fetchJson_error_semantics {α : Type} (timeoutMs status : Nat)
    (statusText : String) (b : α) (allow404 : Bool)
    (hok : ¬(200 ≤ status ∧ status ≤ 299))
    (h404 : ¬(allow404 = true ∧ status = 404)) :
    fetchJsonCount timeoutMs allow404 (FetchOutcome.timeout : FetchOutcome α)
      = (Except.error ("Merkl request timed out after " ++ natDecimal timeoutMs ++ "ms"), 1)
    ∧ fetchJsonCount timeoutMs allow404 (FetchOutcome.response status statusText b)
      = (Except.error ("Merkl request failed: " ++ natDecimal status ++ " " ++ statusText), 1)
    ∧ ∀ o : FetchOutcome α, (fetchJsonCount timeoutMs allow404 o).2 = 1 := by
  refine ⟨rfl, ?_, fun o => rfl⟩
  simp [fetchJsonCount, fetchJson, h404, hok]

/-- C4 witness: a mocked HTTP 500 fails with status 500 and status text,
with exactly one transport call; the timeout message carries 20000ms. -/
theorem fetchJson_error_semantics_witness :
    (¬(200 ≤ 500 ∧ 500 ≤ 299) ∧ ¬((true : Bool) = true ∧ 500 = 404))
    ∧ fetchJsonCount 20000 true (FetchOutcome.response 500 "Internal Server Error" (0 : Nat))
        = (Except.error "Merkl request failed: 500 Internal Server Error", 1)
    ∧ fetchJsonCount 20000 true (FetchOutcome.timeout : FetchOutcome Nat)
        = (Except.error "Merkl request timed out after 20000ms", 1) :=
  by
  refine ⟨⟨by decide, by decide⟩, ?_, ?_⟩
  · have h := (fetchJson_error_semantics 20000 500 "Internal Server Error" (0 : Nat) true
      (by decide) (by decide)).2.1
    have hs : ("Merkl request failed: " ++ natDecimal 500 ++ " " ++ "Internal Server Error")
        = "Merkl request failed: 500 Internal Server Error" := by decide
    rw [h, hs]
  · have h := (fetchJson_error_semantics 20000 500 "Internal Server Error" (0 : Nat) true
      (by decide) (by decide)).1
    have hs : ("Merkl request timed out after " ++ natDecimal 20000 ++ "ms")
        = "Merkl request timed out after 20000ms" := by decide
    rw [h, hs]

/-! ### lodash `_.lowerCase` (used for the dashboard link) -/

/-- Character classes relevant to lodash word splitting (ASCII). -/
inductive CharClass where
  | upper
  | lower
  | digit
  | other
deriving DecidableEq, Repr

/-- ASCII character class of a character. -/
def classOf (c : Char) : CharClass :=
  if c.isUpper then .upper
  else if c.isLower then .lower
  else if c.isDigit then .digit
  else .other

/-- Maximal runs of same-class characters, in order. -/
def splitRuns (l : List Char) : List (CharClass × List Char) :=
  l.foldr
    (fun c acc =>
      match acc with
      | (cls, run) :: rest =>
        if classOf c = cls then (cls, c :: run) :: rest
        else (classOf c, [c]) :: (cls, run) :: rest
      | [] => [(classOf c, [c])])
    []

/-- lodash word boundaries over class runs: an uppercase run directly
followed by a lowercase run contributes its last character to the next
word (`"ZkSync"` gives `Zk`/`Sync`, `"HTMLParser"`-style runs split
before the final upper); digit runs are their own words; non-alphanumeric
runs separate words. -/
def runsToWords : List (CharClass × List Char) → List (List Char)
  | [] => []
  | (CharClass.upper, us) :: (CharClass.lower, ls) :: rest =>
    if 2 ≤ us.length then us.dropLast :: (us.getLastD 'A' :: ls) :: runsToWords rest
    else (us ++ ls) :: runsToWords rest
  | (CharClass.other, _) :: rest => runsToWords rest
  | (_, run) :: rest => run :: runsToWords rest

/-- Model of lodash `_.lowerCase` for the ASCII chain display names fed
to it by the handlers: split into words at case/digit boundaries, drop
separators, lowercase, and join with single spaces. -/
def lowerCase (s : String) : String :=
  String.intercalate " "
    ((runsToWords (splitRuns s.data)).map (fun w => String.mk (w.map Char.toLower)))

example : lowerCase "Ethereum" = "ethereum" := by decide
example : lowerCase "Arbitrum One" = "arbitrum one" := by decide
example : lowerCase "ZkSync Era" = "zk sync era" := by decide
example : lowerCase "BNB Chain" = "bnb chain" := by decide

/-! ### Upstream DTOs and the `opportunities-search` handler -/

/-- The chain object nested in upstream entities (only its display name
is read by the handlers). -/
structure Chain where
  name : String
deriving DecidableEq, Repr

/-- A campaign row of an upstream opportunity, with the fields read by
the `opportunities-search` handler. -/
structure CampaignDto where
  id : String
  campaignId : String
  type : String
  startTimestamp : Int
  endTimestamp : Int
  apr : Option Int
  createdAt : Option String
deriving DecidableEq, Repr

/-- An upstream opportunity, with the fields read by the
`opportunities-search` handler. -/
structure OppDto where
  id : String
  name : String
  chainId : Int
  type : String
  status : String
  apr : Option Int
  tvl : Option Int
  identifier : String
  chain : Chain
  campaigns : List CampaignDto
deriving DecidableEq, Repr

/-- A campaign as shaped by the `opportunities-search` handler. -/
structure ShapedCampaign where
  id : String
  campaignId : String
  type : String
  startTime : String
  endTime : String
  endTimestamp : Int
  apr : Option Int
  createdAt : Option String
deriving DecidableEq, Repr

/-- The campaign reshape of the `opportunities-search` handler: ISO
start/end strings plus the raw `endTimestamp`, `apr` and `createdAt`
passed through. -/
def shapeCampaign (c : CampaignDto) : ShapedCampaign :=
  { id := c.id
    campaignId := c.campaignId
    type := c.type
    startTime := formatTimestamp c.startTimestamp
    endTime := formatTimestamp c.endTimestamp
    endTimestamp := c.endTimestamp
    apr := c.apr
    createdAt := c.createdAt }

/-- An opportunity as shaped by the `opportunities-search` handler. -/
structure ShapedOpp where
  id : String
  name : String
  chainId : Int
  type : String
  status : String
  apr : Option Int
  tvl : Option Int
  link : String
  campaigns : List ShapedCampaign
deriving DecidableEq, Repr

/-- The per-opportunity reshape of the `opportunities-search` handler:
fields copied, the dashboard link synthesized, and the campaign sub-list
mapped then filtered by `c.endTimestamp >= nowTs || !excludeEndedCampaigns`. -/
def shapeOppSearch (excludeEndedCampaigns : Bool) (nowTs : Int) (r : OppDto) : ShapedOpp :=
  { id := r.id
    name := r.name
    chainId := r.chainId
    type := r.type
    status := r.status
    apr := r.apr
    tvl := r.tvl
    link := "https://app.merkl.xyz/opportunities/" ++ lowerCase r.chain.name ++ "/" ++
      r.type ++ "/" ++ r.identifier
    campaigns := (r.campaigns.map shapeCampaign).filter
      (fun c => decide (c.endTimestamp ≥ nowTs) || !excludeEndedCampaigns) }

/-- `const excludeEndedCampaigns = args.excludeEndedCampaigns !== false`:
only an explicit `false` turns the filter off; an absent flag means
`true`. -/
def effectiveExcludeEnded : Option Bool → Bool
  | some false => false
  | _ => true

/-- The `opportunities-search` handler's result list for a given flag,
current time (`Date.now() / 1000`) and upstream response. -/
def oppSearchResults (excludeEndedCampaigns : Option Bool) (nowTs : Int)
    (opportunities : List OppDto) : List ShapedOpp :=
  opportunities.map (shapeOppSearch (effectiveExcludeEnded excludeEndedCampaigns) nowTs)

/-- C5: in `opportunities-search`, a campaign of an opportunity is
retained exactly when its end epoch is `>= now` or the
`excludeEndedCampaigns` flag is false, and an absent flag defaults to
true. -/
theorem oppSearch_campaign_retention (flag : Option Bool) (nowTs : Int)
    (opps : List OppDto) (r : OppDto) (c : ShapedCampaign) :
    (c ∈ (shapeOppSearch (effectiveExcludeEnded flag) nowTs r).campaigns ↔
      (c ∈ r.campaigns.map shapeCampaign
        ∧ (c.endTimestamp ≥ nowTs ∨ effectiveExcludeEnded flag = false)))
    ∧ oppSearchResults flag nowTs opps
        = opps.map (shapeOppSearch (effectiveExcludeEnded flag) nowTs)
    ∧ effectiveExcludeEnded none = true
    ∧ effectiveExcludeEnded (some true) = true
    ∧ effectiveExcludeEnded (some false) = false := by
  refine ⟨?_, rfl, rfl, rfl, rfl⟩
  simp only [shapeOppSearch, List.mem_filter, Bool.or_eq_true, decide_eq_true_eq,
    Bool.not_eq_true']

/-- C10: every campaign in an `opportunities-search` result carries the
raw numeric `endTimestamp` alongside the ISO `startTime`/`endTime`
strings, and the ended-campaign filter compares exactly that field. -/
theorem oppSearch_campaigns_carry_endTimestamp (excl : Bool) (nowTs : Int) (r : OppDto) :
    (shapeOppSearch excl nowTs r).campaigns
      = (r.campaigns.map shapeCampaign).filter
          (fun c => decide (c.endTimestamp ≥ nowTs) || !excl)
    ∧ (∀ c : CampaignDto,
        (shapeCampaign c).endTimestamp = c.endTimestamp
        ∧ (shapeCampaign c).startTime = formatTimestamp c.startTimestamp
        ∧ (shapeCampaign c).endTime = formatTimestamp c.endTimestamp) :=
  ⟨rfl, fun _ => ⟨rfl, rfl, rfl⟩⟩

/-! ### The `campaigns-search` handler -/

/-- The `params` object of an upstream campaign row (the handler reads
`params.targetToken ?? params.poolAddress` for the link). -/
structure CampaignParams where
  targetToken : Option String
  poolAddress : Option String
deriving DecidableEq, Repr

/-- An upstream campaign row, with the fields read by the
`campaigns-search` handler. -/
structure CampaignRowDto where
  id : String
  campaignId : String
  type : String
  distributionType : String
  subType : Int
  rewardTokenId : String
  amount : String
  opportunityId : String
  startTimestamp : Int
  endTimestamp : Int
  dailyRewards : Int
  apr : Int
  createdAt : String
  chain : Chain
  params : CampaignParams
deriving DecidableEq, Repr

/-- A campaign row as shaped by the `campaigns-search` handler. -/
structure ShapedCampaignRow where
  id : String
  campaignId : String
  type : String
  distributionType : String
  subType : Int
  rewardTokenId : String
  amount : String
  opportunityId : String
  startTime : String
  endTime : String
  dailyRewards : Int
  apr : Int
  createdAt : String
  link : String
deriving DecidableEq, Repr

/-- The row reshape of the `campaigns-search` handler. The link uses
`params.targetToken ?? params.poolAddress`; when both are absent the JS
template literal renders the missing value as the text `undefined`. -/
def shapeCampaignRow (c : CampaignRowDto) : ShapedCampaignRow :=
  { id := c.id
    campaignId := c.campaignId
    type := c.type
    distributionType := c.distributionType
    subType := c.subType
    rewardTokenId := c.rewardTokenId
    amount := c.amount
    opportunityId := c.opportunityId
    startTime := formatTimestamp c.startTimestamp
    endTime := formatTimestamp c.endTimestamp
    dailyRewards := c.dailyRewards
    apr := c.apr
    createdAt := c.createdAt
    link := "https://app.merkl.xyz/opportunities/" ++ lowerCase c.chain.name ++ "/" ++
      c.type ++ "/" ++
      (match c.params.targetToken with
       | some t => t
       | none =>
         match c.params.poolAddress with
         | some p => p
         | none => "undefined") }

/-- The `campaigns-search` handler's result list for a given upstream
response: rows are mapped then filtered by `c.type !== "INVALID"`. -/
def campaignsSearchResults (campaigns : List CampaignRowDto) : List ShapedCampaignRow :=
  (campaigns.map shapeCampaignRow).filter (fun c => c.type != "INVALID")

/-- C6: no row with type `"INVALID"` ever appears in a
`campaigns-search` result, and every row with any other type is
retained; the filter is applied to every upstream response, independent
of the caller's filters. -/
theorem campaignsSearch_drops_invalid (rows : List CampaignRowDto) :
    (∀ c ∈ campaignsSearchResults rows, c.type ≠ "INVALID")
    ∧ (∀ r ∈ rows, r.type ≠ "INVALID" → shapeCampaignRow r ∈ campaignsSearchResults rows)
    ∧ (∀ r : CampaignRowDto, (shapeCampaignRow r).type = r.type) := by
  refine ⟨?_, ?_, fun _ => rfl⟩
  · intro c hc
    have h := (List.mem_filter.mp hc).2
    simpa [bne_iff_ne] using h
  · intro r hr hne
    apply List.mem_filter.mpr
    refine ⟨List.mem_map_of_mem _ hr, ?_⟩
    simpa [bne_iff_ne] using hne

/-- A sample upstream row with type `INVALID` (used only to witness the
`campaigns-search` filter). -/
def sampleInvalidRow : CampaignRowDto :=
  { id := "1", campaignId := "0xaa", type := "INVALID", distributionType := "FIX_REWARD"
    subType := 0, rewardTokenId := "tok1", amount := "10", opportunityId := "opp1"
    startTimestamp := 0, endTimestamp := 10, dailyRewards := 1, apr := 2
    createdAt := "2024-01-01", chain := { name := "Ethereum" }
    params := { targetToken := some "0xdead", poolAddress := none } }

/-- A sample upstream row with type `POOL` (used only to witness the
`campaigns-search` filter). -/
def samplePoolRow : CampaignRowDto :=
  { id := "2", campaignId := "0xbb", type := "POOL", distributionType := "FIX_REWARD"
    subType := 0, rewardTokenId := "tok2", amount := "20", opportunityId := "opp2"
    startTimestamp := 0, endTimestamp := 10, dailyRewards := 1, apr := 2
    createdAt := "2024-01-01", chain := { name := "Ethereum" }
    params := { targetToken := none, poolAddress := some "0xbeef" } }

/-- C6 witness: with one INVALID row and one POOL row upstream, the POOL
row is retained (and, per the theorem's first conjunct applied to the
same rows, nothing of type INVALID appears). -/
theorem campaignsSearch_drops_invalid_witness :
    (samplePoolRow ∈ [sampleInvalidRow, samplePoolRow]
      ∧ samplePoolRow.type ≠ "INVALID")
    ∧ shapeCampaignRow samplePoolRow ∈ campaignsSearchResults [sampleInvalidRow, samplePoolRow] :=
  ⟨⟨by decide, by decide⟩,
    (campaignsSearch_drops_invalid [sampleInvalidRow, samplePoolRow]).2.1 samplePoolRow
      (by decide) (by decide)⟩

/-- C7: for every non-negative epoch-seconds integer, the timestamp
formatter is a pure function (two renderings of the same input are the
same ISO-8601 string), and 0 renders to the Unix epoch instant. -/
theorem formatTimestamp_deterministic_epoch :
    (∀ t : Int, 0 ≤ t → formatTimestamp t = formatTimestamp t)
    ∧ formatTimestamp 0 = "1970-01-01T00:00:00.000Z" :=
  ⟨fun _ _ => rfl, by decide⟩

/-- C7 witness: the determinism statement applied at a concrete
non-negative epoch-seconds value. -/
theorem formatTimestamp_deterministic_epoch_witness :
    ((0 : Int) ≤ 1700000000)
    ∧ formatTimestamp 1700000000 = formatTimestamp 1700000000
    ∧ formatTimestamp 0 = "1970-01-01T00:00:00.000Z" :=
  ⟨by decide, formatTimestamp_deterministic_epoch.1 1700000000 (by decide),
    formatTimestamp_deterministic_epoch.2⟩

/-! ### Identifier validation (zod `.regex` checks of the id inputs)

zod's `.regex(re)` check runs `re.test(input)`, and a JS regex without
anchors matches any substring. The `opportunities-get` pattern
`(([0-9]*)-([0-9A-Z]*)-(0x([0-9A-Za-z])*))|([0-9]{1,20})` is unanchored:
its second alternative matches a substring exactly when the string
contains a digit, and its first alternative matches a substring exactly
when some `-` is followed by a run of `[0-9A-Z]` and then `-0x` (the
leading digit run and the trailing `[0-9A-Za-z]` run may be empty). The
sibling `opportunities-campaigns` and `campaigns-get` patterns are
anchored with `^`/`$`. -/

/-- After a candidate first `-` of the composite alternative: a run of
`[0-9A-Z]` must be followed by the literal `-0x` (everything after `0x`
is optional, since the final class is starred). -/
def oppAfterDash : List Char → Bool
  | '-' :: '0' :: 'x' :: _ => true
  | c :: rest => isUpperAlnumCh c && oppAfterDash rest
  | [] => false

/-- Does the composite alternative match anywhere in the string? Every
match must place its first literal `-` on some `-` of the input (the
leading `[0-9]*` is optional), so it suffices to scan all dashes. -/
def oppAlt1Anywhere : List Char → Bool
  | [] => false
  | '-' :: rest => oppAfterDash rest || oppAlt1Anywhere rest
  | _ :: rest => oppAlt1Anywhere rest

/-- The `opportunities-get` id check (`inputSchema.id` of
`opportunities-get` in `src/server.ts`): unanchored test of the two
alternatives. -/
def oppIdTest (s : String) : Bool :=
  oppAlt1Anywhere s.data || s.data.any isDigitCh

/-- The `campaigns-get` id check: anchored `^[0-9]+$`. -/
def campaignIdTest (s : String) : Bool :=
  !s.data.isEmpty && s.data.all isDigitCh

/-- Full-string match of the anchored composite shape
`^([0-9]*)-([0-9A-Z]*)-(0x[0-9A-Za-z]+)$` used by the sibling
`opportunities-campaigns` tool. -/
def anchoredOppShape (l : List Char) : Bool :=
  match l.dropWhile isDigitCh with
  | '-' :: r2 =>
    (match r2.dropWhile isUpperAlnumCh with
     | '-' :: '0' :: 'x' :: r4 => !r4.isEmpty && r4.all isAlnumCh
     | _ => false)
  | _ => false

/-- The `opportunities-campaigns` id check:
`(^([0-9]*)-([0-9A-Z]*)-(0x[0-9A-Za-z]+)$)|(^[0-9]{1,20}$)` — the
anchored variant of the opportunity-id pattern. -/
def oppCampaignsIdTest (s : String) : Bool :=
  anchoredOppShape s.data
    || (!s.data.isEmpty && decide (s.data.length ≤ 20) && s.data.all isDigitCh)

/-- Hexadecimal digit. -/
def isHexCh (c : Char) : Bool :=
  c.isDigit || (decide ('A' ≤ c) && decide (c ≤ 'F')) || (decide ('a' ≤ c) && decide (c ≤ 'f'))

/-- The claim's first accepted opportunity-id shape, read off the spec's
words for the refinement comparison: a full-string match of
`<int>-<UPPERCASE_ALNUM>-0x<hex>` with all three parts non-empty. -/
def specOppShape1 (s : String) : Bool :=
  let l := s.data
  !(l.takeWhile isDigitCh).isEmpty &&
    match l.dropWhile isDigitCh with
    | '-' :: r2 =>
      !(r2.takeWhile isUpperAlnumCh).isEmpty &&
        (match r2.dropWhile isUpperAlnumCh with
         | '-' :: '0' :: 'x' :: r4 => !r4.isEmpty && r4.all isHexCh
         | _ => false)
    | _ => false

/-- The claim's second accepted opportunity-id shape: a bare decimal
integer string of 1 to 20 digits (full string). -/
def specOppShape2 (s : String) : Bool :=
  !s.data.isEmpty && decide (s.data.length ≤ 20) && s.data.all isDigitCh

example : oppIdTest "12-AB-0xDEAD" = true := by decide
example : oppIdTest "98" = true := by decide
example : oppIdTest "abc" = false := by decide
example : oppIdTest "a1" = true := by decide
example : campaignIdTest "123" = true := by decide
example : campaignIdTest "12a" = false := by decide
example : oppCampaignsIdTest "12-AB-0xDEAD" = true := by decide
example : oppCampaignsIdTest "a1" = false := by decide

/-! ### Client methods with `allow404` and the single-entity tools -/

/-- Bytes kept verbatim by `encodeURIComponent`: ASCII alphanumerics and
`- _ . ! ~ * ' ( )`. -/
def isUriSafe (b : Nat) : Bool :=
  (0x41 ≤ b && b ≤ 0x5A) || (0x61 ≤ b && b ≤ 0x7A) || (0x30 ≤ b && b ≤ 0x39) ||
    b == 0x21 || b == 0x27 || b == 0x28 || b == 0x29 || b == 0x2A ||
    b == 0x2D || b == 0x2E || b == 0x5F || b == 0x7E

/-- One byte of `encodeURIComponent` output. -/
def uriEncodeByte (b : Nat) : List Char :=
  if isUriSafe b then [Char.ofNat b]
  else ['%', hexDigitCh (b / 16), hexDigitCh (b % 16)]

/-- JS `encodeURIComponent`. -/
def encodeURIComponent (s : String) : String :=
  String.mk ((strBytes s).foldr (fun b acc => uriEncodeByte b ++ acc) [])

/-- URL built by `MerklClient.listOpportunities` (note the trailing
slash before the query, as in the source). -/
def listOpportunitiesUrl (baseUrl : String) (q : List (String × JsValue)) : String :=
  baseUrl ++ "/v4/opportunities/" ++ toQuery q

/-- URL built by `MerklClient.listCampaigns` (no trailing slash). -/
def listCampaignsUrl (baseUrl : String) (q : List (String × JsValue)) : String :=
  baseUrl ++ "/v4/campaigns" ++ toQuery q

/-- URL built by `MerklClient.getOpportunity`. -/
def getOpportunityUrl (baseUrl id : String) (q : List (String × JsValue)) : String :=
  baseUrl ++ "/v4/opportunities/" ++ encodeURIComponent id ++ toQuery q

/-- A campaign as read by the `opportunities-get` /
`opportunities-campaigns` handlers: those handlers feed the upstream
fields named `startTime`/`endTime` to `formatTimestamp`. -/
structure OppGetCampaignDto where
  id : String
  name : String
  description : Option String
  startTime : Int
  endTime : Int
deriving DecidableEq, Repr

/-- The campaign reshape of the `opportunities-get` handler. -/
structure OppGetCampaignShaped where
  id : String
  name : String
  description : Option String
  startTime : String
  endTime : String
deriving DecidableEq, Repr

/-- Campaign reshape used by `opportunities-get` and
`opportunities-campaigns`. -/
def shapeOppGetCampaign (c : OppGetCampaignDto) : OppGetCampaignShaped :=
  { id := c.id, name := c.name, description := c.description
    startTime := formatTimestamp c.startTime, endTime := formatTimestamp c.endTime }

/-- An upstream opportunity as read by the `opportunities-get` /
`opportunities-campaigns` handlers (`tokens` is an opaque pass-through
array, modelled as strings). -/
structure OppGetDto where
  id : String
  name : String
  description : Option String
  type : String
  identifier : String
  status : String
  action : String
  chainId : Int
  apr : Option Int
  maxApr : Option Int
  dailyRewards : Option Int
  tvl : Option Int
  depositUrl : Option String
  explorerAddress : Option String
  tags : Option (List String)
  campaigns : List OppGetCampaignDto
  tokens : List String
deriving DecidableEq, Repr

/-- The `opportunities-get` / `opportunities-campaigns` result shape. -/
structure OppGetShaped where
  id : String
  name : String
  description : Option String
  type : String
  identifier : String
  status : String
  action : String
  chainId : Int
  apr : Option Int
  maxApr : Option Int
  dailyRewards : Option Int
  tvl : Option Int
  depositUrl : Option String
  explorerAddress : Option String
  tags : Option (List String)
  campaigns : List OppGetCampaignShaped
  tokens : List String
deriving DecidableEq, Repr

/-- The reshape of the `opportunities-get` and `opportunities-campaigns`
handlers (both read the same fields). -/
def shapeOppGet (o : OppGetDto) : OppGetShaped :=
  { id := o.id, name := o.name, description := o.description, type := o.type
    identifier := o.identifier, status := o.status, action := o.action
    chainId := o.chainId, apr := o.apr, maxApr := o.maxApr
    dailyRewards := o.dailyRewards, tvl := o.tvl, depositUrl := o.depositUrl
    explorerAddress := o.explorerAddress, tags := o.tags
    campaigns := o.campaigns.map shapeOppGetCampaign, tokens := o.tokens }

/-- An upstream campaign as read by the `campaigns-get` handler (that
handler feeds fields named `startTime`/`endTime` to `formatTimestamp`). -/
structure CampaignGetDto where
  id : String
  campaignId : String
  type : String
  distributionType : String
  subType : Int
  rewardTokenId : String
  amount : String
  opportunityId : String
  startTime : Int
  endTime : Int
  dailyRewards : Int
  apr : Int
  creatorAddress : String
  chain : Option Chain
  distributionChain : Option Chain
  createdAt : String
deriving DecidableEq, Repr

/-- The `campaigns-get` result shape. -/
structure CampaignGetShaped where
  id : String
  campaignId : String
  type : String
  distributionType : String
  subType : Int
  rewardTokenId : String
  amount : String
  opportunityId : String
  startTime : String
  endTime : String
  dailyRewards : Int
  apr : Int
  creatorAddress : String
  chain : Option Chain
  distributionChain : Option Chain
  createdAt : String
deriving DecidableEq, Repr

/-- The reshape of the `campaigns-get` handler. -/
def shapeCampaignGet (c : CampaignGetDto) : CampaignGetShaped :=
  { id := c.id, campaignId := c.campaignId, type := c.type
    distributionType := c.distributionType, subType := c.subType
    rewardTokenId := c.rewardTokenId, amount := c.amount
    opportunityId := c.opportunityId
    startTime := formatTimestamp c.startTime, endTime := formatTimestamp c.endTime
    dailyRewards := c.dailyRewards, apr := c.apr
    creatorAddress := c.creatorAddress, chain := c.chain
    distributionChain := c.distributionChain, createdAt := c.createdAt }

/-- `MerklClient.getOpportunity`: throws on an empty id, then fetches
with `allow404` (the query `q` only affects the request URL, which is
modelled by `getOpportunityUrl`). -/
def getOpportunity (timeoutMs : Nat) (id : String) (q : List (String × JsValue))
    (o : FetchOutcome OppGetDto) : Except String (Option OppGetDto) :=
  if id = "" then Except.error "id is required"
  else fetchJson timeoutMs true o

/-- `MerklClient.getOpportunityCampaigns`: same contract as
`getOpportunity`, against the `/campaigns` sub-resource. -/
def getOpportunityCampaigns (timeoutMs : Nat) (id : String)
    (q : List (String × JsValue)) (o : FetchOutcome OppGetDto) :
    Except String (Option OppGetDto) :=
  if id = "" then Except.error "id is required"
  else fetchJson timeoutMs true o

/-- `MerklClient.getCampaign`: throws on an empty id, then fetches with
`allow404`. -/
def getCampaign (timeoutMs : Nat) (id : String) (q : List (String × JsValue))
    (o : FetchOutcome CampaignGetDto) : Except String (Option CampaignGetDto) :=
  if id = "" then Except.error "id is required"
  else fetchJson timeoutMs true o

/-- JS member access `o.f` where `o` may be the `null` sentinel:
reading a property of `null` throws a `TypeError`. -/
def jsGet {α β : Type} (o : Option α) (f : α → β) : Except String β :=
  match o with
  | none => Except.error "TypeError: Cannot read properties of null"
  | some x => Except.ok (f x)

/-- The `opportunities-get` handler body: one client call, then a
reshape that starts by reading `opportunity.id` off the fetched value. -/
def oppGetTool (timeoutMs : Nat) (id : String) (q : List (String × JsValue))
    (o : FetchOutcome OppGetDto) : Except String OppGetShaped :=
  match getOpportunity timeoutMs id q o with
  | Except.error e => Except.error e
  | Except.ok opp => jsGet opp shapeOppGet

/-- The `opportunities-campaigns` handler body. -/
def oppCampaignsTool (timeoutMs : Nat) (id : String) (q : List (String × JsValue))
    (o : FetchOutcome OppGetDto) : Except String OppGetShaped :=
  match getOpportunityCampaigns timeoutMs id q o with
  | Except.error e => Except.error e
  | Except.ok opp => jsGet opp shapeOppGet

/-- The `campaigns-get` handler body: one client call, then a reshape
that starts by reading `campaign.id` off the fetched value. -/
def campaignGetTool (timeoutMs : Nat) (id : String) (q : List (String × JsValue))
    (o : FetchOutcome CampaignGetDto) : Except String CampaignGetShaped :=
  match getCampaign timeoutMs id q o with
  | Except.error e => Except.error e
  | Except.ok c => jsGet c shapeCampaignGet

/-- The `opportunities-get` tool including its input-schema validation:
the MCP server validates the input schema before invoking the handler,
so a failing regex check returns the zod error with zero transport
calls; otherwise the handler runs and makes its single upstream call.
The second component counts transport invocations. -/
def oppGetToolChecked (timeoutMs : Nat) (id : String) (q : List (String × JsValue))
    (o : FetchOutcome OppGetDto) : Except String OppGetShaped × Nat :=
  if oppIdTest id then (oppGetTool timeoutMs id q o, 1)
  else (Except.error "Invalid id format", 0)

/-- The `campaigns-get` tool including its input-schema validation. -/
def campaignGetToolChecked (timeoutMs : Nat) (id : String) (q : List (String × JsValue))
    (o : FetchOutcome CampaignGetDto) : Except String CampaignGetShaped × Nat :=
  if campaignIdTest id then (campaignGetTool timeoutMs id q o, 1)
  else (Except.error "Invalid campaign id format", 0)

/-- A sample upstream opportunity body (content irrelevant: it rides
along mocked outcomes). -/
def sampleOppGetDto : OppGetDto :=
  { id := "123", name := "Opp", description := none, type := "POOL"
    identifier := "0x1", status := "LIVE", action := "POOL", chainId := 1
    apr := none, maxApr := none, dailyRewards := none, tvl := none
    depositUrl := none, explorerAddress := none, tags := none
    campaigns := [], tokens := [] }

/-- A sample upstream campaign body (content irrelevant: it rides along
mocked outcomes). -/
def sampleCampaignGetDto : CampaignGetDto :=
  { id := "9", campaignId := "0xcc", type := "POOL"
    distributionType := "FIX_REWARD", subType := 0, rewardTokenId := "tok"
    amount := "5", opportunityId := "opp", startTime := 0, endTime := 10
    dailyRewards := 1, apr := 2, creatorAddress := "0xabc", chain := none
    distributionChain := none, createdAt := "2024-01-01" }

/-- C2: the `opportunities-get` id pattern is unanchored, so the
malformed id `"a1"` (which matches neither accepted shape) passes
validation and the upstream call is made, while the anchored sibling
patterns (`opportunities-campaigns`, `campaigns-get`) reject it; an id
the pattern does reject (`"abc"`) fails with zero transport calls. -/
theorem oppGet_id_validation_unanchored :
    oppIdTest "a1" = true
    ∧ specOppShape1 "a1" = false
    ∧ specOppShape2 "a1" = false
    ∧ (oppGetToolChecked 20000 "a1" []
        (FetchOutcome.response 500 "Internal Server Error" sampleOppGetDto)).2 = 1
    ∧ oppCampaignsIdTest "a1" = false
    ∧ campaignIdTest "a1" = false
    ∧ oppIdTest "abc" = false
    ∧ (oppGetToolChecked 20000 "abc" []
        (FetchOutcome.response 200 "OK" sampleOppGetDto)).2 = 0
    ∧ (campaignGetToolChecked 20000 "12a" []
        (FetchOutcome.response 200 "OK" sampleCampaignGetDto)).2 = 0 := by
  decide

/-- C3: with `allow404`, an upstream 404 makes all three single-entity
client methods return the null sentinel, but each tool handler then
dereferences that null (reading `.id` for the reshape), so the tool
invocation fails with a TypeError instead of returning the sentinel
declared by its nullable output schema. -/
theorem allow404_sentinel_null_dereferenced :
    getOpportunity 20000 "123" []
        (FetchOutcome.response 404 "Not Found" sampleOppGetDto) = Except.ok none
    ∧ getOpportunityCampaigns 20000 "123" []
        (FetchOutcome.response 404 "Not Found" sampleOppGetDto) = Except.ok none
    ∧ getCampaign 20000 "9" []
        (FetchOutcome.response 404 "Not Found" sampleCampaignGetDto) = Except.ok none
    ∧ oppGetTool 20000 "123" []
        (FetchOutcome.response 404 "Not Found" sampleOppGetDto)
        = Except.error "TypeError: Cannot read properties of null"
    ∧ oppCampaignsTool 20000 "123" []
        (FetchOutcome.response 404 "Not Found" sampleOppGetDto)
        = Except.error "TypeError: Cannot read properties of null"
    ∧ campaignGetTool 20000 "9" []
        (FetchOutcome.response 404 "Not Found" sampleCampaignGetDto)
        = Except.error "TypeError: Cannot read properties of null" :=
  ⟨rfl, rfl, rfl, rfl, rfl, rfl⟩

/-! ### Default injection of the search handlers -/

/-- lodash `_(args).has(k)` on a plain args object. -/
def objHas (args : List (String × JsValue)) (k : String) : Bool :=
  args.any (fun p => p.1 == k)

/-- lodash `_(args).set(k, v).value()` on a plain args object: replace
the value of an existing key in place, or add the new key at the end of
the iteration order. -/
def objSet (args : List (String × JsValue)) (k : String) (v : JsValue) :
    List (String × JsValue) :=
  if objHas args k then args.map (fun p => if p.1 = k then (k, v) else p)
  else args ++ [(k, v)]

/-- Default injection of the `opportunities-search` handler: `campaigns`
is set to `true` when absent, then `items` is set to `100` when absent. -/
def oppSearchArgsWithDefaults (args : List (String × JsValue)) : List (String × JsValue) :=
  let a1 := if objHas args "campaigns" then args
            else objSet args "campaigns" (JsValue.scalar (JsScalar.bool true))
  if objHas a1 "items" then a1
  else objSet a1 "items" (JsValue.scalar (JsScalar.num 100))

/-- Default injection of the `campaigns-search` handler: `items` is set
to `100` when absent. -/
def campaignsSearchArgsWithDefaults (args : List (String × JsValue)) : List (String × JsValue) :=
  if objHas args "items" then args
  else objSet args "items" (JsValue.scalar (JsScalar.num 100))

theorem objHas_false_forall (args : List (String × JsValue)) (k : String)
    (h : objHas args k = false) : ∀ p ∈ args, p.1 ≠ k := by
  intro p hp
  have := List.any_eq_false.mp h p hp
  simpa using this

theorem lookup_append_right {β : Type} (l1 l2 : List (String × β)) (k : String)
    (h : ∀ p ∈ l1, p.1 ≠ k) : List.lookup k (l1 ++ l2) = List.lookup k l2 := by
  induction l1 with
  | nil => rfl
  | cons p rest ih =>
    cases p with
    | mk a b =>
      have hne : (k == a) = false := by
        have := h (a, b) (List.mem_cons_self _ _)
        simp only [ne_eq] at this
        exact beq_eq_false_iff_ne.mpr fun hc => this hc.symm
      simp only [List.cons_append, List.lookup, hne]
      exact ih (fun q hq => h q (List.mem_cons_of_mem _ hq))

theorem filterMap_keys_fresh (args : List (String × JsValue)) (k : String)
    (h : ∀ a ∈ args, a.1 ≠ k) :
    ∀ p ∈ args.filterMap (fun p => (keepValue p.2).map (fun s => (p.1, s))),
      p.1 ≠ k := by
  intro p hp
  rcases List.mem_filterMap.mp hp with ⟨a, ha, hfa⟩
  rcases Option.map_eq_some'.mp hfa with ⟨s, _, hps⟩
  have hk : a.1 = p.1 := congrArg Prod.fst hps
  rw [← hk]
  exact h a ha

theorem nodup_keys_append_pair (args : List (String × JsValue)) (k : String) (v : JsValue)
    (hnd : (args.map Prod.fst).Nodup) (hfresh : ∀ p ∈ args, p.1 ≠ k) :
    ((args ++ [(k, v)]).map Prod.fst).Nodup := by
  rw [List.map_append, List.nodup_append]
  refine ⟨hnd, by simp, ?_⟩
  intro a ha hb
  have hak : a = k := by simpa using hb
  rcases List.mem_map.mp ha with ⟨p, hp, hpa⟩
  exact hfresh p hp (by rw [hpa, hak])

theorem nodup_keys_append_two (args : List (String × JsValue)) (k1 k2 : String)
    (v1 v2 : JsValue) (hnd : (args.map Prod.fst).Nodup)
    (hf1 : ∀ p ∈ args, p.1 ≠ k1) (hf2 : ∀ p ∈ args, p.1 ≠ k2) (hk : k1 ≠ k2) :
    ((args ++ [(k1, v1), (k2, v2)]).map Prod.fst).Nodup := by
  rw [List.map_append, List.nodup_append]
  refine ⟨hnd, by simp [hk], ?_⟩
  intro a ha hb
  rcases List.mem_map.mp ha with ⟨p, hp, hpa⟩
  have : a = k1 ∨ a = k2 := by simpa using hb
  rcases this with h | h
  · exact hf1 p hp (by rw [hpa, h])
  · exact hf2 p hp (by rw [hpa, h])

/-- When the lookup key does not occur among the original keys, looking
it up in the serialized parameters of `args ++ tail` reduces to the
serialized `tail`. -/
theorem lookup_keptPairs_append (args tail : List (String × JsValue)) (k : String)
    (hfresh : ∀ p ∈ args, p.1 ≠ k)
    (hnd : (((args ++ tail)).map Prod.fst).Nodup) :
    List.lookup k (keptPairs (args ++ tail))
      = List.lookup k (tail.filterMap (fun p => (keepValue p.2).map (fun s => (p.1, s)))) := by
  rw [keptPairs_eq_filterMap _ hnd, List.filterMap_append,
    lookup_append_right _ _ _ (filterMap_keys_fresh args k hfresh)]

/-- C9: for every `opportunities-search` invocation with no `campaigns`
flag supplied (whatever else is supplied), the upstream query carries
`campaigns=true`; for every `opportunities-search` invocation with no
`items` supplied (whatever else is supplied), and likewise for every
`campaigns-search` invocation with no `items` supplied, the upstream
query carries `items=100`. The three conclusions quantify over separate
argument objects, each constrained only in the one flag it is about. -/
theorem search_defaults_injected (argsO argsO2 argsC : List (String × JsValue))
    (hc : objHas argsO "campaigns" = false)
    (hndO : (argsO.map Prod.fst).Nodup)
    (hi : objHas argsO2 "items" = false)
    (hndO2 : (argsO2.map Prod.fst).Nodup)
    (hic : objHas argsC "items" = false)
    (hndC : (argsC.map Prod.fst).Nodup) :
    List.lookup "campaigns" (keptPairs (oppSearchArgsWithDefaults argsO)) = some "true"
    ∧ List.lookup "items" (keptPairs (oppSearchArgsWithDefaults argsO2)) = some "100"
    ∧ List.lookup "items" (keptPairs (campaignsSearchArgsWithDefaults argsC)) = some "100" := by
  have hfc := objHas_false_forall argsO "campaigns" hc
  have hfi2 := objHas_false_forall argsO2 "items" hi
  have hfiC := objHas_false_forall argsC "items" hic
  refine ⟨?_, ?_, ?_⟩
  · -- campaigns absent; items may or may not have been supplied
    by_cases hii : objHas (argsO ++ [("campaigns", JsValue.scalar (JsScalar.bool true))])
        "items" = true
    · have hres : oppSearchArgsWithDefaults argsO
          = argsO ++ [("campaigns", JsValue.scalar (JsScalar.bool true))] := by
        simp [oppSearchArgsWithDefaults, objSet, hc, hii]
      rw [hres, lookup_keptPairs_append argsO _ "campaigns" hfc
        (nodup_keys_append_pair argsO "campaigns" _ hndO hfc)]
      decide
    · have hii' : objHas (argsO ++ [("campaigns", JsValue.scalar (JsScalar.bool true))])
          "items" = false := by simpa using hii
      have hfiO : ∀ p ∈ argsO, p.1 ≠ "items" := fun p hp =>
        objHas_false_forall _ "items" hii' p (List.mem_append_left _ hp)
      have hres : oppSearchArgsWithDefaults argsO
          = argsO ++ [("campaigns", JsValue.scalar (JsScalar.bool true)),
                      ("items", JsValue.scalar (JsScalar.num 100))] := by
        simp [oppSearchArgsWithDefaults, objSet, hc, hii']
      rw [hres, lookup_keptPairs_append argsO _ "campaigns" hfc
        (nodup_keys_append_two argsO "campaigns" "items" _ _ hndO hfc hfiO (by decide))]
      decide
  · -- items absent; campaigns may or may not have been supplied
    by_cases hcc : objHas argsO2 "campaigns" = true
    · have hres : oppSearchArgsWithDefaults argsO2
          = argsO2 ++ [("items", JsValue.scalar (JsScalar.num 100))] := by
        simp [oppSearchArgsWithDefaults, objSet, hcc, hi]
      rw [hres, lookup_keptPairs_append argsO2 _ "items" hfi2
        (nodup_keys_append_pair argsO2 "items" _ hndO2 hfi2)]
      decide
    · have hcc' : objHas argsO2 "campaigns" = false := by simpa using hcc
      have hfc2 := objHas_false_forall argsO2 "campaigns" hcc'
      have hmid : objHas (argsO2 ++ [("campaigns", JsValue.scalar (JsScalar.bool true))])
          "items" = false := by
        unfold objHas
        rw [List.any_append]
        unfold objHas at hi
        rw [hi]
        decide
      have hres : oppSearchArgsWithDefaults argsO2
          = argsO2 ++ [("campaigns", JsValue.scalar (JsScalar.bool true)),
                       ("items", JsValue.scalar (JsScalar.num 100))] := by
        simp [oppSearchArgsWithDefaults, objSet, hcc', hmid]
      rw [hres, lookup_keptPairs_append argsO2 _ "items" hfi2
        (nodup_keys_append_two argsO2 "campaigns" "items" _ _ hndO2 hfc2 hfi2 (by decide))]
      decide
  · have hres : campaignsSearchArgsWithDefaults argsC
        = argsC ++ [("items", JsValue.scalar (JsScalar.num 100))] := by
      simp [campaignsSearchArgsWithDefaults, objSet, hic]
    rw [hres, lookup_keptPairs_append argsC _ "items" hfiC
      (nodup_keys_append_pair argsC "items" _ hndC hfiC)]
    decide

/-- C9 witness: each default applied independently — `{items: 50}` with
no `campaigns` flag still gets `campaigns=true`, `{campaigns: false}`
with no `items` still gets `items=100`, and a `campaigns-search` call
with no `items` gets `items=100` — together with the concrete upstream
URLs produced. -/
theorem search_defaults_injected_witness :
    (objHas [("items", JsValue.scalar (JsScalar.num 50))] "campaigns" = false
      ∧ objHas [("campaigns", JsValue.scalar (JsScalar.bool false))] "items" = false
      ∧ objHas ([] : List (String × JsValue)) "items" = false)
    ∧ List.lookup "campaigns"
        (keptPairs (oppSearchArgsWithDefaults [("items", JsValue.scalar (JsScalar.num 50))]))
        = some "true"
    ∧ List.lookup "items"
        (keptPairs (oppSearchArgsWithDefaults
          [("campaigns", JsValue.scalar (JsScalar.bool false))]))
        = some "100"
    ∧ List.lookup "items" (keptPairs (campaignsSearchArgsWithDefaults [])) = some "100"
    ∧ listOpportunitiesUrl "https://api.merkl.xyz"
        (oppSearchArgsWithDefaults [("items", JsValue.scalar (JsScalar.num 50))])
        = "https://api.merkl.xyz/v4/opportunities/?items=50&campaigns=true"
    ∧ listOpportunitiesUrl "https://api.merkl.xyz"
        (oppSearchArgsWithDefaults [("campaigns", JsValue.scalar (JsScalar.bool false))])
        = "https://api.merkl.xyz/v4/opportunities/?campaigns=false&items=100"
    ∧ listCampaignsUrl "https://api.merkl.xyz" (campaignsSearchArgsWithDefaults [])
        = "https://api.merkl.xyz/v4/campaigns?items=100" := by
  have h := search_defaults_injected
    [("items", JsValue.scalar (JsScalar.num 50))]
    [("campaigns", JsValue.scalar (JsScalar.bool false))]
    []
    (by decide) (by decide) (by decide) (by decide) (by decide) (by decide)
  exact ⟨⟨by decide, by decide, by decide⟩, h.1, h.2.1, h.2.2, by decide, by decide, by decide⟩

end Merkl
